import Mathlib

/-!
Verification of the core logic of `overlay_fixed_complete_final.py`
(vibe-stats-overlay): the telemetry sampler (network throughput delta
computation, battery formatting), the GPU enumeration/sampling with
fallback, the display-row value clamping, and the pane view-state machine.

Python numbers are modelled as rationals (exact arithmetic); Python's
`int(...)` conversion (truncation toward zero) is `pyInt`; code that can
raise is modelled with `Option`/`Except` where the corresponding `try`
blocks sit in the source.
-/

namespace Overlay

/-- A Python value passed to `StatRow.update_value`: `None`, a numeric value
(int/float/numeric string, modelled as an exact rational), or a value on
which `int(...)` raises. -/
inductive PyVal where
  | none
  | num (q : ℚ)
  | nonNumeric
deriving DecidableEq

/-- Python's `int(x)` on a numeric value: truncation toward zero. -/
def pyInt (q : ℚ) : ℤ := if 0 ≤ q then ⌊q⌋ else ⌈q⌉

/-- `StatRow.update_value` (source lines 165-173): `None` becomes 0, a
numeric value is truncated with `int` and clamped by
`max(0, min(100, int(percent)))`, and a value on which `int` raises is
replaced by 0.  The result is the integer shown on the bar and label. -/
def updateValue : PyVal → ℤ
  | PyVal.none => max 0 (min 100 (pyInt 0))
  | PyVal.num q => max 0 (min 100 (pyInt q))
  | PyVal.nonNumeric => 0

theorem pyInt_intCast (z : ℤ) : pyInt (z : ℚ) = z := by
  unfold pyInt
  split
  · exact Int.floor_intCast z
  · exact Int.ceil_intCast z

theorem pyInt_nonneg_eq_floor {q : ℚ} (h : 0 ≤ q) : pyInt q = ⌊q⌋ := by
  unfold pyInt
  exact if_pos h

theorem updateValue_zero : updateValue (PyVal.num 0) = 0 := by
  norm_num [updateValue, pyInt]

/-! ### Network throughput (`OverlayWindow.update_stats`, lines 908-943) -/

/-- One entry of `psutil.net_io_counters(pernic=True)`: cumulative sent and
received byte counters of one interface. -/
structure NetCounters where
  bytes_sent : ℕ
  bytes_recv : ℕ
deriving DecidableEq

/-- The carried `self.previous_net` dict: interface name, last counters and
last sample timestamp. -/
structure PrevNet where
  name : String
  sent : ℕ
  recv : ℕ
  time : ℚ
deriving DecidableEq

/-- Cumulative `bytes_sent + bytes_recv` of one per-NIC entry. -/
def nicTotal (x : String × NetCounters) : ℕ := x.2.bytes_sent + x.2.bytes_recv

/-- One iteration of the top-interface selection loop (lines 913-917): an
interface replaces the current best only when its total is strictly larger
than the running maximum, which starts at 0. -/
def selectStep (acc : Option (String × NetCounters) × ℕ) (x : String × NetCounters) :
    Option (String × NetCounters) × ℕ :=
  if acc.2 < nicTotal x then (some x, nicTotal x) else acc

/-- The `top_nic` selection (lines 911-917): fold over the per-NIC dict in
iteration order, keeping the first interface of strictly largest positive
total; `none` when every total is 0 (then `top_nic` stays `None`). -/
def selectTopNic (pernic : List (String × NetCounters)) : Option (String × NetCounters) :=
  (pernic.foldl selectStep (none, 0)).1

/-- Lines 923-925: `dt = now - prev["time"]; if dt <= 0: dt = 1.0`. -/
def effectiveDt (dt : ℚ) : ℚ := if dt ≤ 0 then 1 else dt

/-- The body of the network update once `top_nic` has been computed
(lines 918-941).  Returns the displayed row value (after
`row_net.update_value`) and the new `self.previous_net`. -/
def netTickTop (prev : Option PrevNet) (top : Option (String × NetCounters)) (now : ℚ) :
    ℤ × Option PrevNet :=
  match top with
  | some (nicName, curr) =>
    let newPrev : PrevNet :=
      { name := nicName, sent := curr.bytes_sent, recv := curr.bytes_recv, time := now }
    match prev with
    | some p =>
      if p.name = nicName then
        let dt := effectiveDt (now - p.time)
        let sentDelta := ((curr.bytes_sent : ℚ) - (p.sent : ℚ)) / dt
        let recvDelta := ((curr.bytes_recv : ℚ) - (p.recv : ℚ)) / dt
        let kbps := (sentDelta + recvDelta) / 1024
        let pct : ℤ := min 100 (pyInt (kbps / 102400 * 100))
        (updateValue (PyVal.num (pct : ℚ)), some newPrev)
      else
        (updateValue (PyVal.num 0), some newPrev)
    | none => (updateValue (PyVal.num 0), some newPrev)
  | none => (updateValue (PyVal.num 0), prev)

/-- One network tick (lines 908-941): select the top-traffic interface,
then update the row and the carried state. -/
def netTick (prev : Option PrevNet) (pernic : List (String × NetCounters)) (now : ℚ) :
    ℤ × Option PrevNet :=
  netTickTop prev (selectTopNic pernic) now

theorem selectFold_eq_none (l : List (String × NetCounters)) :
    ∀ acc : Option (String × NetCounters) × ℕ,
      (l.foldl selectStep acc).1 = none →
        acc.1 = none ∧ ∀ x ∈ l, nicTotal x ≤ acc.2 := by
  induction l with
  | nil => intro acc h; exact ⟨h, by simp⟩
  | cons x xs ih =>
    intro acc h
    rw [List.foldl_cons] at h
    obtain ⟨h1, h2⟩ := ih (selectStep acc x) h
    unfold selectStep at h1 h2
    by_cases hx : acc.2 < nicTotal x
    · rw [if_pos hx] at h1; cases h1
    · rw [if_neg hx] at h1 h2
      exact ⟨h1, by
        intro y hy
        rcases List.mem_cons.mp hy with rfl | hy'
        · exact Nat.le_of_not_lt hx
        · exact h2 y hy'⟩

theorem selectFold_all_zero (l : List (String × NetCounters))
    (h : ∀ x ∈ l, nicTotal x = 0) :
    l.foldl selectStep (none, 0) = (none, 0) := by
  induction l with
  | nil => rfl
  | cons x xs ih =>
    rw [List.foldl_cons]
    have hx : nicTotal x = 0 := h x (List.mem_cons_self x xs)
    have : selectStep (none, 0) x = (none, 0) := by
      unfold selectStep; rw [hx]; simp
    rw [this]
    exact ih fun y hy => h y (List.mem_cons_of_mem x hy)

/-! ### GPU enumeration and per-tick sampling
(`detect_gpus_and_populate` lines 521-565, the GPU block of `update_stats`
lines 893-906, `_update_gpus_gputil` lines 945-960) -/

/-- `detect_gpus_and_populate` (lines 521-565), returning the stored row
names (the first components of `self.gpu_rows`).  `nvmlNames` is the result
of the pynvml enumeration block (`none` when any call in its `try` raises,
which the code treats as zero devices), consulted only when `nvmlAvail`
(the `NVML` flag); `gputilNames` likewise for the `GPUtil.getGPUs()` block.
The fallback block runs only when the accumulated name list is empty
(`if not gpu_names and GPUtil_available`).  An empty final list yields the
single placeholder row named "GPU".  In the code `gpu_count` always equals
the length of `gpu_names` at the `if gpu_count == 0` test, so the test is
modelled as emptiness of the name list. -/
def detectGpus (nvmlAvail : Bool) (nvmlNames : Option (List String))
    (gputilAvail : Bool) (gputilNames : Option (List String)) : List String :=
  let names1 : List String :=
    if nvmlAvail then
      match nvmlNames with
      | some ns => ns
      | none => []
    else []
  let names2 : List String :=
    if names1.isEmpty && gputilAvail then
      match gputilNames with
      | some ns => ns
      | none => []
    else names1
  if names2.isEmpty then ["GPU"] else names2

/-- The pynvml per-tick loop body (lines 895-902):
`for idx in range(max(len(self.gpu_rows), count))` threading the row values;
`query idx` models `nvmlDeviceGetHandleByIndex(idx)` followed by
`nvmlDeviceGetUtilizationRates(handle).gpu` (`none` = the call raises).
A raise aborts the whole loop (the `try` wraps the loop), carrying the rows
as mutated so far in the `error` case.  `fuel` is the number of remaining
loop iterations. -/
def nvmlGo (query : ℕ → Option ℕ) (count : ℕ) (rows : List ℤ) (idx fuel : ℕ) :
    Except (List ℤ) (List ℤ) :=
  match fuel with
  | 0 => Except.ok rows
  | fuel' + 1 =>
    if idx < count ∧ idx < rows.length then
      match query idx with
      | some util => nvmlGo query count (rows.set idx (updateValue (PyVal.num (util : ℚ)))) (idx + 1) fuel'
      | none => Except.error rows
    else if idx < rows.length then
      nvmlGo query count (rows.set idx (updateValue (PyVal.num 0))) (idx + 1) fuel'
    else
      nvmlGo query count rows (idx + 1) fuel'

/-- The full pynvml per-tick loop (lines 895-902), starting at index 0 with
the loop bound `max(len(self.gpu_rows), count)` computed once. -/
def nvmlLoop (query : ℕ → Option ℕ) (count : ℕ) (rows : List ℤ) : Except (List ℤ) (List ℤ) :=
  nvmlGo query count rows 0 (max rows.length count)

/-- The per-row update of `_update_gpus_gputil` when `GPUtil.getGPUs()`
succeeded (lines 948-954): row `idx` gets `int(gpus[idx].load * 100)` when
`idx < len(gpus)` and 0 otherwise.  (`update_value` re-applies `int`, which
is idempotent, so the inner `int` is absorbed into `updateValue`.) -/
def gputilRows (loads : List ℚ) : ℕ → List ℤ → List ℤ
  | _, [] => []
  | idx, _ :: rest =>
    (if idx < loads.length then updateValue (PyVal.num (loads.getD idx 0 * 100))
     else updateValue (PyVal.num 0)) :: gputilRows loads (idx + 1) rest

/-- `_update_gpus_gputil` (lines 945-960): when GPUtil is available and
`getGPUs()` succeeds the rows are updated per index; when it raises, or when
GPUtil is unavailable, every row is set to 0. -/
def gputilUpdate (avail : Bool) (loads : Option (List ℚ)) (rows : List ℤ) : List ℤ :=
  if avail then
    match loads with
    | some ls => gputilRows ls 0 rows
    | none => rows.map fun _ => updateValue (PyVal.num 0)
  else rows.map fun _ => updateValue (PyVal.num 0)

/-- The GPU block of `update_stats` (lines 893-906): with NVML the count is
queried (`nvmlCount = none` models `nvmlDeviceGetCount()` raising) and the
per-device loop runs; any raise inside the `try` falls back to
`_update_gpus_gputil` on the rows as mutated so far.  Without NVML the
GPUtil path runs directly. -/
def updateGpus (nvmlAvail : Bool) (nvmlCount : Option ℕ) (query : ℕ → Option ℕ)
    (gputilAvail : Bool) (gputilLoads : Option (List ℚ)) (rows : List ℤ) : List ℤ :=
  if nvmlAvail then
    match nvmlCount with
    | some count =>
      match nvmlLoop query count rows with
      | Except.ok r => r
      | Except.error abortedRows => gputilUpdate gputilAvail gputilLoads abortedRows
    | none => gputilUpdate gputilAvail gputilLoads rows
  else gputilUpdate gputilAvail gputilLoads rows

theorem nvmlGo_length (query : ℕ → Option ℕ) (count : ℕ) :
    ∀ (fuel idx : ℕ) (rows : List ℤ),
      (match nvmlGo query count rows idx fuel with
       | Except.ok r => r.length
       | Except.error r => r.length) = rows.length := by
  intro fuel
  induction fuel with
  | zero => intro idx rows; rfl
  | succ fuel' ih =>
    intro idx rows
    unfold nvmlGo
    by_cases h1 : idx < count ∧ idx < rows.length
    · rw [if_pos h1]
      cases hq : query idx with
      | some util => simpa using ih (idx + 1) (rows.set idx (updateValue (PyVal.num (util : ℚ))))
      | none => rfl
    · rw [if_neg h1]
      by_cases h2 : idx < rows.length
      · rw [if_pos h2]
        simpa using ih (idx + 1) (rows.set idx (updateValue (PyVal.num 0)))
      · rw [if_neg h2]
        exact ih (idx + 1) rows

theorem gputilRows_length (loads : List ℚ) :
    ∀ (idx : ℕ) (rows : List ℤ), (gputilRows loads idx rows).length = rows.length := by
  intro idx rows
  induction rows generalizing idx with
  | nil => rfl
  | cons r rest ih => simp [gputilRows, ih]

theorem map_const_zero_of_length_eq :
    ∀ (l1 l2 : List ℤ), l1.length = l2.length →
      (l1.map fun _ => (0 : ℤ)) = l2.map fun _ => (0 : ℤ) := by
  intro l1
  induction l1 with
  | nil =>
    intro l2 h
    cases l2 with
    | nil => rfl
    | cons _ _ => simp at h
  | cons a t ih =>
    intro l2 h
    cases l2 with
    | nil => simp at h
    | cons b t2 =>
      simp only [List.map_cons, ih t2 (by simpa using h)]

/-! ### Pane view-state machine
(`toggle_tab` lines 625-651, `show_live_from_tab` lines 653-661,
`open_settings` lines 663-691, initial widget state from `build_ui`) -/

/-- The pane-related widget state of `OverlayWindow`: the checked state of the
two checkable tab buttons, whether `settings_area` has been lazily created
(`hasattr(self, "settings_area")`), and the visibility flags of the four pane
areas and the home button.  The `btn_settings` checked flag is omitted: it is
never read by any handler. -/
structure UiState where
  infoChecked : Bool
  aboutChecked : Bool
  settingsCreated : Bool
  liveVisible : Bool
  infoVisible : Bool
  aboutVisible : Bool
  settingsVisible : Bool
  homeVisible : Bool
deriving DecidableEq

/-- The state after `build_ui` (lines 378-518): live area visible, info and
about hidden, home button hidden, settings area not yet created. -/
def initState : UiState :=
  { infoChecked := false, aboutChecked := false, settingsCreated := false,
    liveVisible := true, infoVisible := false, aboutVisible := false,
    settingsVisible := false, homeVisible := false }

/-- Clicking the Info tab: Qt flips the checkable button's state before the
`clicked` handler runs, then `toggle_tab("info")` (lines 626-638) branches on
the new checked state.  The `hasattr` guard on `settings_area` is the
`settingsCreated` test. -/
def clickInfo (s : UiState) : UiState :=
  let s1 := { s with infoChecked := !s.infoChecked }
  if s1.infoChecked then
    { s1 with aboutChecked := false, homeVisible := true, infoVisible := true,
              aboutVisible := false, liveVisible := false,
              settingsVisible := if s1.settingsCreated then false else s1.settingsVisible }
  else
    { s1 with infoVisible := false, liveVisible := true, homeVisible := false }

/-- Clicking the About tab (`toggle_tab("about")`, lines 639-651). -/
def clickAbout (s : UiState) : UiState :=
  let s1 := { s with aboutChecked := !s.aboutChecked }
  if s1.aboutChecked then
    { s1 with infoChecked := false, homeVisible := true, aboutVisible := true,
              infoVisible := false, liveVisible := false,
              settingsVisible := if s1.settingsCreated then false else s1.settingsVisible }
  else
    { s1 with aboutVisible := false, liveVisible := true, homeVisible := false }

/-- Clicking the Settings button (`open_settings`, lines 663-691): unchecks
both tabs, hides live/info/about, lazily creates the settings area and
unconditionally shows it.  There is no branch on whether settings is already
showing. -/
def clickSettings (s : UiState) : UiState :=
  { s with infoChecked := false, aboutChecked := false, homeVisible := true,
           liveVisible := false, infoVisible := false, aboutVisible := false,
           settingsCreated := true, settingsVisible := true }

/-- The Home button handler `show_live_from_tab` (lines 653-661). -/
def showLiveFromTab (s : UiState) : UiState :=
  { s with infoChecked := false, aboutChecked := false, homeVisible := false,
           infoVisible := false, aboutVisible := false, liveVisible := true,
           settingsVisible := if s.settingsCreated then false else s.settingsVisible }

/-! ### Battery (`update_battery`, lines 846-866) -/

/-- The result of `psutil.sensors_battery()` when a battery is present. -/
structure BatteryInfo where
  percent : ℚ
  power_plugged : Bool
deriving DecidableEq

/-- `update_battery` (lines 846-866): the sensor raising yields
"Battery: --"; `None` yields "No battery"; otherwise the label shows the
truncated percent with a plug/battery symbol and a Charging / On Battery
status. -/
def updateBattery (sensor : Except Unit (Option BatteryInfo)) : String :=
  match sensor with
  | Except.error _ => "Battery: --"
  | Except.ok none => "No battery"
  | Except.ok (some b) =>
    let percent := pyInt b.percent
    if b.power_plugged then "🔌 " ++ toString percent ++ "% (Charging)"
    else "🔋 " ++ toString percent ++ "% (On Battery)"

/-! ### Claim theorems -/

/-- Claim C2, corrected.  The divisor used by the throughput computation is
`dt` itself whenever `dt > 0` and 1.0 exactly when `dt ≤ 0`; it is therefore
always strictly positive (in particular Δt = 0 is treated as 1.0 and the
division never divides by zero), but it is NOT floored at a minimum of 1.0:
a Δt strictly between 0 and 1 is used unchanged. -/
theorem C2_effective_dt (dt : ℚ) :
    0 < effectiveDt dt ∧ (dt ≤ 0 → effectiveDt dt = 1) ∧ (0 < dt → effectiveDt dt = dt) := by
  unfold effectiveDt
  by_cases h : dt ≤ 0
  · rw [if_pos h]
    exact ⟨one_pos, fun _ => rfl, fun h2 => absurd h (not_le.mpr h2)⟩
  · rw [if_neg h]
    exact ⟨lt_of_not_le h, fun h2 => absurd h2 h, fun _ => rfl⟩

/-- Claim C2, counterexample to the claim as stated: at measured elapsed time
Δt = 1/2 the divisor actually used is 1/2, which is smaller than 1.0, and the
full network tick divides by 1/2 (yielding percent 2 where a divisor floored
at 1.0 would yield 1). -/
theorem C2_counterexample :
    ¬ (1 ≤ effectiveDt (1/2)) ∧ effectiveDt (1/2) = 1/2 ∧
    (netTick (some { name := "e", sent := 0, recv := 0, time := 0 })
        [("e", { bytes_sent := 1048576, bytes_recv := 0 })] (1/2)).1 = 2 := by
  refine ⟨by norm_num [effectiveDt], by norm_num [effectiveDt], ?_⟩
  norm_num [netTick, netTickTop, selectTopNic, selectStep, nicTotal, effectiveDt,
    updateValue, pyInt]

/-- Claim C2, witness for the proved (amended) theorem at Δt = 0 and
Δt = 1/2. -/
theorem C2_witness : effectiveDt 0 = 1 ∧ effectiveDt (1/2) = 1/2 :=
  ⟨(C2_effective_dt 0).2.1 le_rfl, (C2_effective_dt (1/2)).2.2 (by norm_num)⟩

/-- Claim C3, confirmed.  `StatRow.update_value` always produces an integer
in [0,100]: `None` and non-convertible inputs become 0, negative numeric
inputs saturate to 0, numeric inputs above 100 saturate to 100. -/
theorem C3_update_value_clamped :
    (∀ v : PyVal, 0 ≤ updateValue v ∧ updateValue v ≤ 100) ∧
    updateValue PyVal.none = 0 ∧
    updateValue PyVal.nonNumeric = 0 ∧
    (∀ q : ℚ, q < 0 → updateValue (PyVal.num q) = 0) ∧
    (∀ q : ℚ, 100 < q → updateValue (PyVal.num q) = 100) := by
  refine ⟨?_, by norm_num [updateValue, pyInt], rfl, ?_, ?_⟩
  · intro v
    have hb : ∀ z : ℤ, 0 ≤ max 0 (min 100 z) ∧ max 0 (min 100 z) ≤ 100 := by
      intro z
      exact ⟨le_max_left 0 _, max_le (by norm_num) (min_le_left 100 z)⟩
    cases v with
    | none => exact hb _
    | num q => exact hb _
    | nonNumeric => exact ⟨le_refl 0, by norm_num [updateValue]⟩
  · intro q hq
    have hc : pyInt q = ⌈q⌉ := if_neg (not_le.mpr hq)
    have hc0 : ⌈q⌉ ≤ 0 := Int.ceil_le.mpr (by exact_mod_cast hq.le)
    simp only [updateValue]
    rw [hc, min_eq_right (le_trans hc0 (by norm_num)), max_eq_left hc0]
  · intro q hq
    have h0 : (0 : ℚ) ≤ q := le_trans (by norm_num) hq.le
    have hf : pyInt q = ⌊q⌋ := pyInt_nonneg_eq_floor h0
    have h100 : (100 : ℤ) ≤ ⌊q⌋ := Int.le_floor.mpr (by exact_mod_cast hq.le)
    simp only [updateValue]
    rw [hf, min_eq_left h100, max_eq_right (by norm_num)]

/-- Claim C3, witness: a negative input saturates to 0 and an input above
100 saturates to 100. -/
theorem C3_witness :
    updateValue (PyVal.num (-5)) = 0 ∧ updateValue (PyVal.num 150) = 100 :=
  ⟨C3_update_value_clamped.2.2.2.1 (-5) (by norm_num),
   C3_update_value_clamped.2.2.2.2 150 (by norm_num)⟩

/-- Claim C6, confirmed.  When an interface is selected as top-traffic but no
previous sample exists, or the previous sample is for a different interface
name, the displayed network percent is 0 regardless of the byte counters. -/
theorem C6_interface_change_zero :
    (∀ (pernic : List (String × NetCounters)) (now : ℚ) (n : String) (c : NetCounters),
        selectTopNic pernic = some (n, c) → (netTick none pernic now).1 = 0) ∧
    (∀ (p : PrevNet) (pernic : List (String × NetCounters)) (now : ℚ)
        (n : String) (c : NetCounters),
        selectTopNic pernic = some (n, c) → p.name ≠ n →
        (netTick (some p) pernic now).1 = 0) := by
  constructor
  · intro pernic now n c hsel
    unfold netTick
    rw [hsel]
    simp [netTickTop, updateValue_zero]
  · intro p pernic now n c hsel hne
    unfold netTick
    rw [hsel]
    simp [netTickTop, hne, updateValue_zero]

/-- Claim C6, witness: a fresh start (no previous sample) and a changed
interface name both display 0 despite large byte deltas. -/
theorem C6_witness :
    (netTick none [("e", { bytes_sent := 999999, bytes_recv := 3 })] 5).1 = 0 ∧
    (netTick (some { name := "f", sent := 0, recv := 0, time := 0 })
        [("e", { bytes_sent := 999999, bytes_recv := 3 })] 5).1 = 0 :=
  ⟨C6_interface_change_zero.1 _ 5 "e" { bytes_sent := 999999, bytes_recv := 3 } (by decide),
   C6_interface_change_zero.2 _ _ 5 "e" { bytes_sent := 999999, bytes_recv := 3 }
     (by decide) (by decide)⟩

/-- Claim C9, confirmed.  A sensor reporting no battery yields the distinct
text "No battery" (different from the 0-percent not-charging reading); a
present battery yields Charging when plugged and On Battery otherwise. -/
theorem C9_battery :
    updateBattery (Except.ok none) = "No battery" ∧
    updateBattery (Except.ok none) ≠
      updateBattery (Except.ok (some { percent := 0, power_plugged := false })) ∧
    (∀ b : BatteryInfo, b.power_plugged = true →
        updateBattery (Except.ok (some b)) =
          "🔌 " ++ toString (pyInt b.percent) ++ "% (Charging)") ∧
    (∀ b : BatteryInfo, b.power_plugged = false →
        updateBattery (Except.ok (some b)) =
          "🔋 " ++ toString (pyInt b.percent) ++ "% (On Battery)") := by
  have hz : pyInt 0 = 0 := by norm_num [pyInt]
  refine ⟨rfl, ?_, ?_, ?_⟩
  · simp only [updateBattery, hz]
    decide
  · intro b hb
    simp [updateBattery, hb]
  · intro b hb
    simp [updateBattery, hb]

/-- Claim C9, witness: a plugged battery at 75 percent reads Charging and an
unplugged one reads On Battery. -/
theorem C9_witness :
    updateBattery (Except.ok (some { percent := 75, power_plugged := true })) =
      "🔌 " ++ toString (pyInt (75 : ℚ)) ++ "% (Charging)" ∧
    updateBattery (Except.ok (some { percent := 40, power_plugged := false })) =
      "🔋 " ++ toString (pyInt (40 : ℚ)) ++ "% (On Battery)" :=
  ⟨C9_battery.2.2.1 { percent := 75, power_plugged := true } rfl,
   C9_battery.2.2.2 { percent := 40, power_plugged := false } rfl⟩

/-- Claim C10, confirmed.  Whenever some interface has a positive cumulative
byte total (equivalently, the selection yields an interface), the carried
`previous_net` state is overwritten with that tick's selected name, counters
and timestamp — irrespective of whether the name matched the previous tick —
and when no interface has positive traffic the carried state is unchanged. -/
theorem C10_prev_net_update :
    (∀ (prev : Option PrevNet) (pernic : List (String × NetCounters)) (now : ℚ)
        (n : String) (c : NetCounters),
        selectTopNic pernic = some (n, c) →
        (netTick prev pernic now).2 =
          some { name := n, sent := c.bytes_sent, recv := c.bytes_recv, time := now }) ∧
    (∀ (prev : Option PrevNet) (pernic : List (String × NetCounters)) (now : ℚ),
        selectTopNic pernic = none → (netTick prev pernic now).2 = prev) ∧
    (∀ pernic : List (String × NetCounters),
        selectTopNic pernic = none ↔ ∀ x ∈ pernic, nicTotal x = 0) := by
  refine ⟨?_, ?_, ?_⟩
  · intro prev pernic now n c hsel
    unfold netTick
    rw [hsel]
    cases prev with
    | none => simp [netTickTop]
    | some p =>
      by_cases hn : p.name = n
      · simp [netTickTop, hn]
      · simp [netTickTop, hn]
  · intro prev pernic now hsel
    unfold netTick
    rw [hsel]
    rfl
  · intro pernic
    constructor
    · intro h x hx
      exact Nat.le_zero.mp ((selectFold_eq_none pernic (none, 0) h).2 x hx)
    · intro h
      unfold selectTopNic
      rw [selectFold_all_zero pernic h]

/-- Claim C10, witness: a tick with positive traffic overwrites the carried
state even though the interface name changed, and a tick with no positive
traffic leaves it unchanged. -/
theorem C10_witness :
    (netTick (some { name := "f", sent := 1, recv := 2, time := 3 })
        [("e", { bytes_sent := 5, bytes_recv := 7 })] 9).2 =
      some { name := "e", sent := 5, recv := 7, time := 9 } ∧
    (netTick (some { name := "f", sent := 1, recv := 2, time := 3 })
        [("e", { bytes_sent := 0, bytes_recv := 0 })] 9).2 =
      some { name := "f", sent := 1, recv := 2, time := 3 } :=
  ⟨C10_prev_net_update.1 _ _ 9 "e" { bytes_sent := 5, bytes_recv := 7 } (by decide),
   C10_prev_net_update.2.1 _ _ 9 (by decide)⟩

/-- Claim C1, corrected.  For consecutive ticks on the same selected
interface with counter increases S and R over T > 0 time units, the
displayed network percent is `min(100, ⌊((S+R)/T/1024)/102400*100⌋)`:
the code converts with Python `int(...)` (truncation, i.e. floor on the
nonnegative value), not `round(...)` as the claim states. -/
theorem C1_net_percent (pernic : List (String × NetCounters)) (p : PrevNet)
    (S R : ℕ) (T : ℚ) (n : String) (c : NetCounters)
    (hsel : selectTopNic pernic = some (n, c)) (hname : p.name = n)
    (hS : c.bytes_sent = p.sent + S) (hR : c.bytes_recv = p.recv + R) (hT : 0 < T) :
    (netTick (some p) pernic (p.time + T)).1 =
      min 100 ⌊(((S : ℚ) + (R : ℚ)) / T / 1024) / 102400 * 100⌋ := by
  unfold netTick
  rw [hsel]
  have hdt : effectiveDt (p.time + T - p.time) = T := by
    rw [add_sub_cancel_left]
    unfold effectiveDt
    rw [if_neg (not_le.mpr hT)]
  have hds : ((c.bytes_sent : ℚ) - (p.sent : ℚ)) = (S : ℚ) := by
    rw [hS]; push_cast; ring
  have hdr : ((c.bytes_recv : ℚ) - (p.recv : ℚ)) = (R : ℚ) := by
    rw [hR]; push_cast; ring
  simp only [netTickTop, hname, if_pos, hdt, hds, hdr, ite_true, if_true, eq_self_iff_true]
  have hcomb : (S : ℚ) / T + (R : ℚ) / T = ((S : ℚ) + (R : ℚ)) / T := div_add_div_same _ _ _
  rw [hcomb]
  set q : ℚ := (((S : ℚ) + (R : ℚ)) / T / 1024) / 102400 * 100 with hqdef
  have hq : 0 ≤ q := by
    rw [hqdef]
    positivity
  have hfl : pyInt q = ⌊q⌋ := pyInt_nonneg_eq_floor hq
  have hz0 : (0 : ℤ) ≤ min 100 ⌊q⌋ := le_min (by norm_num) (Int.floor_nonneg.mpr hq)
  have hz100 : min 100 ⌊q⌋ ≤ 100 := min_le_left _ _
  simp only [updateValue, hfl, pyInt_intCast]
  rw [min_eq_right hz100, max_eq_right hz0]

/-- Claim C1, counterexample to the claim as stated: with S + R = 786432
bytes over T = 1 on the same interface, the exact percent value is 0.75;
the code displays `min(100, int(0.75)) = 0` while the claimed formula
`min(100, round(0.75)) = 1`. -/
theorem C1_counterexample :
    (netTick (some { name := "e", sent := 0, recv := 0, time := 0 })
        [("e", { bytes_sent := 786432, bytes_recv := 0 })] 1).1 ≠
      min 100 (round ((((786432 : ℚ) + 0) / 1 / 1024) / 102400 * 100)) := by
  have hlhs : (netTick (some { name := "e", sent := 0, recv := 0, time := 0 })
      [("e", { bytes_sent := 786432, bytes_recv := 0 })] 1).1 = 0 := by
    norm_num [netTick, netTickTop, selectTopNic, selectStep, nicTotal, effectiveDt,
      updateValue, pyInt]
  have hrhs : min 100 (round ((((786432 : ℚ) + 0) / 1 / 1024) / 102400 * 100)) = 1 := by
    norm_num [round_eq]
  rw [hlhs, hrhs]
  decide

/-- Claim C1, witness for the amended theorem: S = 2048, R = 0, T = 2 on the
same interface "e" yields the floored formula value. -/
theorem C1_witness :
    (netTick (some { name := "e", sent := 100, recv := 200, time := 10 })
        [("e", { bytes_sent := 2148, bytes_recv := 200 })] (10 + 2)).1 =
      min 100 ⌊((((2048 : ℕ) : ℚ) + ((0 : ℕ) : ℚ)) / 2 / 1024) / 102400 * 100⌋ :=
  C1_net_percent [("e", { bytes_sent := 2148, bytes_recv := 200 })]
    { name := "e", sent := 100, recv := 200, time := 10 } 2048 0 2 "e"
    { bytes_sent := 2148, bytes_recv := 200 } (by decide) rfl (by decide) (by decide)
    (by norm_num)

/-- Claim C4, corrected.  Toggle semantics hold for the Info and About tabs:
requesting one of them while it is active returns to Live, and requesting it
while another pane is active activates it and deactivates the others.
Requesting Settings always activates the Settings pane and deactivates the
others — it has no toggle back to Live.  The concrete scenarios hold:
Info twice returns to Live, Info then About leaves About active and Info
inactive. -/
theorem C4_pane_requests :
    (∀ s : UiState, s.infoChecked = true →
        (clickInfo s).liveVisible = true ∧ (clickInfo s).infoVisible = false ∧
        (clickInfo s).infoChecked = false ∧ (clickInfo s).homeVisible = false) ∧
    (∀ s : UiState, s.aboutChecked = true →
        (clickAbout s).liveVisible = true ∧ (clickAbout s).aboutVisible = false ∧
        (clickAbout s).aboutChecked = false ∧ (clickAbout s).homeVisible = false) ∧
    (∀ s : UiState, s.infoChecked = false →
        (clickInfo s).infoVisible = true ∧ (clickInfo s).infoChecked = true ∧
        (clickInfo s).liveVisible = false ∧ (clickInfo s).aboutVisible = false ∧
        (clickInfo s).aboutChecked = false ∧
        (s.settingsCreated = true → (clickInfo s).settingsVisible = false)) ∧
    (∀ s : UiState, s.aboutChecked = false →
        (clickAbout s).aboutVisible = true ∧ (clickAbout s).aboutChecked = true ∧
        (clickAbout s).liveVisible = false ∧ (clickAbout s).infoVisible = false ∧
        (clickAbout s).infoChecked = false ∧
        (s.settingsCreated = true → (clickAbout s).settingsVisible = false)) ∧
    (∀ s : UiState,
        (clickSettings s).settingsVisible = true ∧ (clickSettings s).liveVisible = false ∧
        (clickSettings s).infoVisible = false ∧ (clickSettings s).aboutVisible = false ∧
        (clickSettings s).infoChecked = false ∧ (clickSettings s).aboutChecked = false) ∧
    clickInfo (clickInfo initState) = initState ∧
    (clickAbout (clickInfo initState)).aboutVisible = true ∧
    (clickAbout (clickInfo initState)).infoVisible = false ∧
    (clickAbout (clickInfo initState)).infoChecked = false := by
  refine ⟨?_, ?_, ?_, ?_, ?_, by decide, by decide, by decide, by decide⟩
  · intro s h
    simp [clickInfo, h]
  · intro s h
    simp [clickAbout, h]
  · intro s h
    refine ⟨by simp [clickInfo, h], by simp [clickInfo, h], by simp [clickInfo, h],
      by simp [clickInfo, h], by simp [clickInfo, h], ?_⟩
    intro hc
    simp [clickInfo, h, hc]
  · intro s h
    refine ⟨by simp [clickAbout, h], by simp [clickAbout, h], by simp [clickAbout, h],
      by simp [clickAbout, h], by simp [clickAbout, h], ?_⟩
    intro hc
    simp [clickAbout, h, hc]
  · intro s
    simp [clickSettings]

/-- Claim C4, counterexample to the claim as stated: requesting Settings
while Settings is already the active pane does not return to Live — the
Settings pane stays active. -/
theorem C4_counterexample :
    (clickSettings (clickSettings initState)).settingsVisible = true ∧
    (clickSettings (clickSettings initState)).liveVisible = false := by
  decide

/-- Claim C4, witness: requesting Info while Info is active (after one Info
request from the initial state) returns to the Live pane. -/
theorem C4_witness :
    (clickInfo (clickInfo initState)).liveVisible = true ∧
    (clickInfo (clickInfo initState)).infoVisible = false :=
  ⟨(C4_pane_requests.1 (clickInfo initState) (by decide)).1,
   (C4_pane_requests.1 (clickInfo initState) (by decide)).2.1⟩

/-- Claim C5, corrected.  A query failure on one device during native
(pynvml) per-tick sampling does NOT degrade only that device: the exception
aborts the whole sampling loop and the GPUtil fallback runs over all rows;
with the fallback unavailable (or its query failing) every row — including
devices already successfully sampled that tick — is set to 0. -/
theorem C5_gpu_failure_whole_backend :
    (∀ (query : ℕ → Option ℕ) (count : ℕ) (rows : List ℤ),
        (∃ r, nvmlLoop query count rows = Except.error r) →
        updateGpus true (some count) query false none rows = rows.map fun _ => (0 : ℤ)) ∧
    (∀ (loads : Option (List ℚ)) (rows : List ℤ),
        gputilUpdate false loads rows = rows.map fun _ => (0 : ℤ)) ∧
    (∀ rows : List ℤ, gputilUpdate true none rows = rows.map fun _ => (0 : ℤ)) := by
  have hfun : (fun _ : ℤ => updateValue (PyVal.num 0)) = fun _ : ℤ => (0 : ℤ) :=
    funext fun _ => updateValue_zero
  refine ⟨?_, ?_, ?_⟩
  · intro query count rows hfail
    obtain ⟨r, hr⟩ := hfail
    have hlen : r.length = rows.length := by
      have h2 := nvmlGo_length query count (max rows.length count) 0 rows
      unfold nvmlLoop at hr
      rw [hr] at h2
      exact h2
    simp only [updateGpus, if_pos]
    rw [hr]
    simp only [gputilUpdate, Bool.false_eq_true, if_false, hfun]
    exact map_const_zero_of_length_eq r rows hlen
  · intro loads rows
    simp only [gputilUpdate, Bool.false_eq_true, if_false, hfun]
  · intro rows
    simp only [gputilUpdate, if_pos, hfun]

/-- Claim C5, counterexample to the claim as stated: two enumerated devices,
device 0 queries to 50 and device 1 fails, fallback unavailable.  Per-device
degradation would display [50, 0]; the code displays [0, 0] because the
failure aborts the loop and the fallback zeroes every row. -/
theorem C5_counterexample :
    updateGpus true (some 2) (fun i => if i = 0 then some 50 else none)
        false none [7, 7] = [0, 0] ∧
    ([0, 0] : List ℤ) ≠ [50, 0] := by
  constructor
  · norm_num [updateGpus, nvmlLoop, nvmlGo, gputilUpdate, updateValue, pyInt]
  · decide

/-- Claim C5, witness for the amended theorem: a single failing device with
the fallback unavailable zeroes the row. -/
theorem C5_witness :
    updateGpus true (some 1) (fun _ => none) false none [5] = [(0 : ℤ)] := by
  have h := C5_gpu_failure_whole_backend.1 (fun _ => none) 1 [5] ⟨[5], rfl⟩
  simpa using h

/-- Claim C7, confirmed.  The fallback (GPUtil) backend is consulted only
when the native (pynvml) backend yields zero devices or fails: when the
native enumeration yields a nonempty name list the rows come from it and the
fallback is ignored; when the native backend reports zero devices (or fails,
or is absent) and the fallback reports a nonempty list of N names, exactly
those N names become the rows. -/
theorem C7_fallback_enumeration :
    (∀ ns : List String, ns ≠ [] → detectGpus true (some []) true (some ns) = ns) ∧
    (∀ ns : List String, ns ≠ [] → detectGpus true none true (some ns) = ns) ∧
    (∀ (ns : List String) (nNs : Option (List String)), ns ≠ [] →
        detectGpus false nNs true (some ns) = ns) ∧
    (∀ (ns : List String) (gA : Bool) (gNs : Option (List String)), ns ≠ [] →
        detectGpus true (some ns) gA gNs = ns) := by
  refine ⟨?_, ?_, ?_, ?_⟩
  · intro ns h
    simp [detectGpus, h]
  · intro ns h
    simp [detectGpus, h]
  · intro ns nNs h
    simp [detectGpus, h]
  · intro ns gA gNs h
    simp [detectGpus, h]

/-- Claim C7, witness: native reporting zero devices and fallback reporting
two names produces exactly those two rows, and a nonempty native result
suppresses the fallback. -/
theorem C7_witness :
    detectGpus true (some []) true (some ["A", "B"]) = ["A", "B"] ∧
    detectGpus true (some ["N"]) true (some ["A", "B"]) = ["N"] :=
  ⟨C7_fallback_enumeration.1 ["A", "B"] (by decide),
   C7_fallback_enumeration.2.2.2 ["N"] true (some ["A", "B"]) (by decide)⟩

/-- Claim C8, confirmed.  When both backends yield zero devices at
enumeration (in any combination of reporting an empty device list, failing,
or being unavailable), exactly one placeholder row named "GPU" is produced;
and on any tick whose backend responses again yield zero devices (count 0,
failure, empty fallback list, or unavailability — the spec fixes the device
population for the session), the placeholder row's displayed value is 0
whatever its previous value was, hence it remains 0 permanently. -/
theorem C8_placeholder_row :
    (detectGpus true (some []) true (some []) = ["GPU"] ∧
     detectGpus true (some []) true none = ["GPU"] ∧
     detectGpus true none true (some []) = ["GPU"] ∧
     detectGpus true none true none = ["GPU"] ∧
     (∀ gNs, detectGpus true (some []) false gNs = ["GPU"]) ∧
     (∀ gNs, detectGpus true none false gNs = ["GPU"]) ∧
     (∀ nNs, detectGpus false nNs true (some []) = ["GPU"]) ∧
     (∀ nNs, detectGpus false nNs true none = ["GPU"]) ∧
     (∀ nNs gNs, detectGpus false nNs false gNs = ["GPU"])) ∧
    (∀ (q : ℕ → Option ℕ) (gA : Bool) (gl : Option (List ℚ)) (r : ℤ),
        updateGpus true (some 0) q gA gl [r] = [0]) ∧
    (∀ (q : ℕ → Option ℕ) (nC : Option ℕ) (r : ℤ),
        updateGpus false nC q true (some []) [r] = [0] ∧
        updateGpus false nC q true none [r] = [0] ∧
        (∀ gl, updateGpus false nC q false gl [r] = [0])) ∧
    (∀ (q : ℕ → Option ℕ) (r : ℤ),
        updateGpus true none q true (some []) [r] = [0] ∧
        updateGpus true none q true none [r] = [0] ∧
        (∀ gl, updateGpus true none q false gl [r] = [0])) := by
  refine ⟨⟨rfl, rfl, rfl, rfl, fun gNs => rfl, fun gNs => rfl, fun nNs => rfl,
    fun nNs => rfl, fun nNs gNs => rfl⟩, ?_, ?_, ?_⟩
  · intro q gA gl r
    simp [updateGpus, nvmlLoop, nvmlGo, updateValue_zero]
  · intro q nC r
    refine ⟨?_, ?_, fun gl => ?_⟩ <;>
      simp [updateGpus, gputilUpdate, gputilRows, updateValue_zero]
  · intro q r
    refine ⟨?_, ?_, fun gl => ?_⟩ <;>
      simp [updateGpus, gputilUpdate, gputilRows, updateValue_zero]

end Overlay
